import Mathlib

/-!
Shallow embedding of the NeuralNexus study-assistant core logic:
the data model (src/types.ts), constants (src/constants.ts), the generation
client (src/services/geminiService.ts), and the session / ingest state
transitions (src/components/Session.tsx, Ingest.tsx).

Stability values are JS numbers whose only operations here are addition of
small integer or half-integer constants and clamping, so they are embedded
as rationals (ℚ), on which all these operations are exact.
-/

namespace NeuralNexus

/-! ## JS host primitives

The source leans on a few JavaScript built-ins (`Math.max`, `Math.min`,
`String.prototype.trim`, `String.prototype.endsWith`,
`String.prototype.split`).  They are embedded here as executable Lean
functions with the same semantics on the values the program feeds them. -/

/-- JS `Math.max` on two numbers. -/
def mathMax (a b : ℚ) : ℚ := if a ≤ b then b else a

/-- JS `Math.min` on two numbers. -/
def mathMin (a b : ℚ) : ℚ := if a ≤ b then a else b

/-- JS `String.prototype.trim`: strip leading and trailing whitespace. -/
def jsTrim (s : String) : String :=
  ⟨((s.data.dropWhile Char.isWhitespace).reverse.dropWhile Char.isWhitespace).reverse⟩

/-- JS `String.prototype.endsWith`. -/
def jsEndsWith (s suff : String) : Bool := suff.data.isSuffixOf s.data

def splitOnCharAux (c : Char) : List Char → List (List Char)
  | [] => [[]]
  | d :: ds =>
      match splitOnCharAux c ds with
      | [] => if d = c then [[], [d]] else [[d]]
      | x :: xs => if d = c then [] :: x :: xs else (d :: x) :: xs

/-- JS `String.prototype.split` with a single-character separator. -/
def splitOnChar (c : Char) (s : String) : List String :=
  (splitOnCharAux c s.data).map (fun l => ⟨l⟩)

/-! ## Constants (src/constants.ts) -/

def STABILITY_THRESHOLD_WIN : ℚ := 90

def STABILITY_PENALTY : ℚ := 15

def STABILITY_BONUS : ℚ := 10

/-! ## Data model (src/types.ts) -/

inductive QuestionType where
  | CONCEPT_CHECK
  | SOCRATIC_DEFENSE
  | COUNTER_THEORY
  deriving DecidableEq, Repr

structure StudyConcept where
  id : String
  term : String
  definition : String
  analogy : String
  mastered : Bool
  deriving DecidableEq, Repr

structure DeepDiveContent where
  theoreticalUnderpinnings : String
  realWorldApplication : String
  interdisciplinaryConnection : String
  deriving DecidableEq, Repr

structure ChallengeResult where
  passed : Bool
  score : Int
  feedback : String
  deriving DecidableEq, Repr

structure GameQuestion where
  id : String
  type : QuestionType
  question : String
  options : Option (List String)
  correctOptionIndex : Option Int
  explanation : String
  difficulty : Int
  deriving DecidableEq, Repr

structure StudySessionData where
  title : String
  summary : String
  concepts : List StudyConcept
  questions : List GameQuestion
  deriving DecidableEq, Repr

structure PlayerStats where
  syncedNodes : Nat
  stability : ℚ
  streak : Nat
  deriving DecidableEq, Repr

/-- Result shape of `evaluateSocraticAnswer` (src/services/geminiService.ts,
return type `\x7bscore: number, feedback: string\x7d`). -/
structure SocraticEval where
  score : Int
  feedback : String
  deriving DecidableEq, Repr

/-! ## Generation client (src/services/geminiService.ts)

Each service call is embedded as a function of the abstract response it got
back from the external model.  `response.text` being absent or empty is
`none`; text that `JSON.parse` rejects is `some RawResponse.unparseable`;
text that parses to a structured value `v` is `some (RawResponse.parsed v)`.
A thrown JS error is `Except.error`. -/

inductive RawResponse (α : Type) where
  | unparseable
  | parsed (value : α)
  deriving DecidableEq, Repr

inductive GenError where
  | noResponseText
  | parseError
  deriving DecidableEq, Repr

/-- Embeds `generateGameSession`: on usable text, parse and force every concept's
`mastered` to false; on empty text throw "No response text generated";
a `JSON.parse` failure propagates out of the try block as an error. -/
def generateGameSession (resp : Option (RawResponse StudySessionData)) :
    Except GenError StudySessionData :=
  match resp with
  | some (RawResponse.parsed d) =>
      Except.ok { d with concepts := d.concepts.map (fun c => { c with mastered := false }) }
  | some RawResponse.unparseable => Except.error GenError.parseError
  | none => Except.error GenError.noResponseText

/-- Embeds `generateDeepDive`: parse on usable text, throw "Deep dive generation
failed" on empty text, propagate a parse failure. -/
def generateDeepDive (resp : Option (RawResponse DeepDiveContent)) :
    Except GenError DeepDiveContent :=
  match resp with
  | some (RawResponse.parsed d) => Except.ok d
  | some RawResponse.unparseable => Except.error GenError.parseError
  | none => Except.error GenError.noResponseText

/-- Embeds `generateConceptChallenge`: `return response.text || "Explain this concept
in your own words."` — no JSON parsing; an absent or empty (falsy) text
yields the fallback question, never an error. -/
def generateConceptChallenge (respText : Option String) : Except GenError String :=
  match respText with
  | some t => Except.ok (if t = "" then "Explain this concept in your own words." else t)
  | none => Except.ok "Explain this concept in your own words."

/-- Embeds `evaluateChallenge`: parse on usable text, throw "Evaluation failed" on
empty text, propagate a parse failure. -/
def evaluateChallenge (resp : Option (RawResponse ChallengeResult)) :
    Except GenError ChallengeResult :=
  match resp with
  | some (RawResponse.parsed r) => Except.ok r
  | some RawResponse.unparseable => Except.error GenError.parseError
  | none => Except.error GenError.noResponseText

/-- Embeds `evaluateSocraticAnswer`: parse on usable text; on empty text it returns
the default value `\x7bscore: 0, feedback: "Analysis failed."\x7d` instead of
throwing; a parse failure propagates (there is no try/catch here). -/
def evaluateSocraticAnswer (resp : Option (RawResponse SocraticEval)) :
    Except GenError SocraticEval :=
  match resp with
  | some (RawResponse.parsed e) => Except.ok e
  | some RawResponse.unparseable => Except.error GenError.parseError
  | none => Except.ok { score := 0, feedback := "Analysis failed." }

def exceptIsOk {ε α : Type} : Except ε α → Bool
  | Except.ok _ => true
  | Except.error _ => false

/-- The concept-count and question-mix requirements stated by the spec for a
generated session, as a checkable predicate.  Modelled from the spec's words
(§4.1: "6–8 concepts ... and exactly 3 questions (2 CONCEPT_CHECK,
1 SOCRATIC_DEFENSE)"); the source's `responseSchema` states these counts only
in free-text `description` fields and enforces none of them. -/
def specSessionShape (d : StudySessionData) : Bool :=
  decide (6 ≤ d.concepts.length) && decide (d.concepts.length ≤ 8) &&
  decide (d.questions.length = 3) &&
  decide ((d.questions.filter (fun q => q.type = QuestionType.CONCEPT_CHECK)).length = 2) &&
  decide ((d.questions.filter (fun q => q.type = QuestionType.SOCRATIC_DEFENSE)).length = 1)

/-! ## Session state machine (src/components/Session.tsx)

The component-local React state slices that the interaction logic reads and
writes, gathered into one record; presentational state (view/mobile toggles,
loading flags) is omitted.  `deepDiveData` (a JS `Record<string,
DeepDiveContent>`) is embedded as an association list whose lookup returns
the most recently written binding for a key. -/

structure HistorySample where
  time : Nat
  stability : ℚ
  deriving DecidableEq, Repr

inductive ConceptMode where
  | OVERVIEW
  | DEEP_DIVE
  | SYNC_PROTOCOL
  deriving DecidableEq, Repr

inductive FeedbackType where
  | success
  | error
  | neutral
  deriving DecidableEq, Repr

structure Feedback where
  ftype : FeedbackType
  msg : String
  deriving DecidableEq, Repr

structure ChallengeFeedback where
  passed : Bool
  msg : String
  deriving DecidableEq, Repr

structure SessionState where
  concepts : List StudyConcept
  activeConceptId : Option String
  conceptMode : ConceptMode
  deepDiveData : List (String × DeepDiveContent)
  challengeQ : Option String
  challengeAnswer : String
  challengeFeedback : Option ChallengeFeedback
  currentQIndex : Nat
  stats : PlayerStats
  history : List HistorySample
  selectedOption : Option Int
  socraticInput : String
  feedback : Option Feedback
  quizComplete : Bool
  deriving DecidableEq, Repr

/-- Lookup in the embedded `Record<string, DeepDiveContent>`. -/
def dlookup (m : List (String × DeepDiveContent)) (k : String) : Option DeepDiveContent :=
  (m.find? (fun p => p.1 == k)).map (fun p => p.2)

/-- Embeds `concepts.find(c => c.id === activeConceptId)`. -/
def activeConcept (st : SessionState) : Option StudyConcept :=
  match st.activeConceptId with
  | none => none
  | some cid => st.concepts.find? (fun c => c.id == cid)

/-- The initial session state (the `useState` initializers). -/
def initialSessionState (dat : StudySessionData) : SessionState :=
  { concepts := dat.concepts
    activeConceptId := none
    conceptMode := ConceptMode.OVERVIEW
    deepDiveData := []
    challengeQ := none
    challengeAnswer := ""
    challengeFeedback := none
    currentQIndex := 0
    stats := { syncedNodes := 0, stability := 50, streak := 0 }
    history := [{ time := 0, stability := 50 }]
    selectedOption := none
    socraticInput := ""
    feedback := none
    quizComplete := false }

/-- Embeds `updateStability`: clamp the new stability into [0, 100], append a history
sample `\x7btime: history.length, stability: newStability\x7d`, `shift()` off the
oldest sample when the buffer exceeds 20, and bump or reset the streak. -/
def updateStability (delta : ℚ) (stats : PlayerStats) (history : List HistorySample) :
    PlayerStats × List HistorySample :=
  let newStability : ℚ := mathMax 0 (mathMin 100 (stats.stability + delta))
  let appended := history ++ [{ time := history.length, stability := newStability }]
  let newHistory := if 20 < appended.length then appended.tail else appended
  ({ stats with
      stability := newStability
      streak := if 0 < delta then stats.streak + 1 else 0 },
   newHistory)

/-- Apply `updateStability delta` to the stats/history slices of the state. -/
def applyStability (delta : ℚ) (st : SessionState) : SessionState :=
  let p := updateStability delta st.stats st.history
  { st with stats := p.1, history := p.2 }

/-- Embeds `handleConceptSelect`. -/
def handleConceptSelect (cid : String) (st : SessionState) : SessionState :=
  { st with
      activeConceptId := some cid
      conceptMode := ConceptMode.OVERVIEW
      challengeQ := none
      challengeAnswer := ""
      challengeFeedback := none }

/-- Embeds `fetchDeepDive`: no-op without an active concept; on a cache hit switch to
DEEP_DIVE without calling out; otherwise call `generateDeepDive`
(`callResult` is its outcome), cache and switch on success, and on failure
only log.  The boolean records whether an external call was issued. -/
def fetchDeepDive (callResult : Except Unit DeepDiveContent) (st : SessionState) :
    SessionState × Bool :=
  match activeConcept st with
  | none => (st, false)
  | some c =>
      match dlookup st.deepDiveData c.id with
      | some _ => ({ st with conceptMode := ConceptMode.DEEP_DIVE }, false)
      | none =>
          match callResult with
          | Except.ok d =>
              ({ st with
                  deepDiveData := (c.id, d) :: st.deepDiveData
                  conceptMode := ConceptMode.DEEP_DIVE }, true)
          | Except.error _ => (st, true)

/-- Embeds `initSyncProtocol`: switch to SYNC_PROTOCOL, clear the challenge slate,
then install the generated question or the literal error question. -/
def initSyncProtocol (callResult : Except Unit String) (st : SessionState) : SessionState :=
  match activeConcept st with
  | none => st
  | some _ =>
      let st := { st with
          conceptMode := ConceptMode.SYNC_PROTOCOL
          challengeQ := none
          challengeAnswer := ""
          challengeFeedback := none }
      match callResult with
      | Except.ok q => { st with challengeQ := some q }
      | Except.error _ => { st with challengeQ := some "Error generating protocol. Try again." }

/-- Embeds `submitSyncChallenge`: guarded on an active concept, a (truthy) challenge
question and a non-empty answer; on a passed evaluation mark the concept
mastered, apply a +10 stability delta and bump `syncedNodes`; on a failed
evaluation apply a -5 delta; a thrown call is caught and only logged. -/
def submitSyncChallenge (callResult : Except Unit ChallengeResult) (st : SessionState) :
    SessionState :=
  match activeConcept st, st.challengeQ with
  | some c, some q =>
      if q = "" ∨ st.challengeAnswer = "" then st
      else
        match callResult with
        | Except.error _ => st
        | Except.ok r =>
            let st := { st with challengeFeedback := some { passed := r.passed, msg := r.feedback } }
            if r.passed then
              let st := { st with
                  concepts := st.concepts.map
                    (fun k => if k.id == c.id then { k with mastered := true } else k) }
              let st := applyStability 10 st
              { st with stats := { st.stats with syncedNodes := st.stats.syncedNodes + 1 } }
            else
              applyStability (-5) st
  | _, _ => st

/-- Embeds `handleChoiceSubmit`: no-op on a null selection; on a correct selection set
success feedback and apply `+STABILITY_BONUS`; otherwise set error feedback
and apply `-STABILITY_PENALTY`. -/
def handleChoiceSubmit (q : GameQuestion) (st : SessionState) : SessionState :=
  match st.selectedOption with
  | none => st
  | some sel =>
      if q.correctOptionIndex = some sel then
        applyStability STABILITY_BONUS
          { st with feedback := some { ftype := FeedbackType.success, msg := q.explanation } }
      else
        applyStability (-STABILITY_PENALTY)
          { st with feedback := some { ftype := FeedbackType.error,
                                       msg := "Incorrect. " ++ q.explanation } }

/-- The feedback message built by `handleSocraticSubmit`. -/
def socraticMsg (e : SocraticEval) : String :=
  "[EVALUATION]: " ++ e.feedback ++ " (Score: " ++ toString e.score ++ "/100)"

/-- Embeds `handleSocraticSubmit`: guarded on a non-blank answer; a caught call
failure only sets an error notice; otherwise pass iff `score >= 70`, set
feedback and apply `+STABILITY_BONUS * 1.5` or `-STABILITY_PENALTY`. -/
def handleSocraticSubmit (callResult : Except Unit SocraticEval) (st : SessionState) :
    SessionState :=
  if jsTrim st.socraticInput = "" then st
  else
    match callResult with
    | Except.error _ =>
        { st with feedback := some { ftype := FeedbackType.error,
                                     msg := "Communication with evaluation core failed." } }
    | Except.ok e =>
        let passed := 70 ≤ e.score
        let fb : Feedback :=
          { ftype := if passed then FeedbackType.success else FeedbackType.error
            msg := socraticMsg e }
        let st := { st with feedback := some fb }
        applyStability (if passed then STABILITY_BONUS * 1.5 else -STABILITY_PENALTY) st

/-- Embeds `nextQuestion`. -/
def nextQuestion (dat : StudySessionData) (st : SessionState) : SessionState :=
  if st.currentQIndex < dat.questions.length - 1 then
    { st with
        currentQIndex := st.currentQIndex + 1
        selectedOption := none
        socraticInput := ""
        feedback := none }
  else
    { st with quizComplete := true }

/-- The user / completion events the session component reacts to; external
calls carry their outcome. -/
inductive SessionEvent where
  | selectConcept (cid : String)
  | deepDive (callResult : Except Unit DeepDiveContent)
  | initSync (callResult : Except Unit String)
  | submitSync (callResult : Except Unit ChallengeResult)
  | choiceSubmit
  | socraticSubmit (callResult : Except Unit SocraticEval)
  | next
  | setSelectedOption (i : Int)
  | setSocraticInput (s : String)
  | setChallengeAnswer (s : String)
  deriving Repr

/-- One transition of the session state machine. -/
def step (dat : StudySessionData) (e : SessionEvent) (st : SessionState) : SessionState :=
  match e with
  | SessionEvent.selectConcept cid => handleConceptSelect cid st
  | SessionEvent.deepDive r => (fetchDeepDive r st).1
  | SessionEvent.initSync r => initSyncProtocol r st
  | SessionEvent.submitSync r => submitSyncChallenge r st
  | SessionEvent.choiceSubmit =>
      match dat.questions.get? st.currentQIndex with
      | some q => handleChoiceSubmit q st
      | none => st
  | SessionEvent.socraticSubmit r => handleSocraticSubmit r st
  | SessionEvent.next => nextQuestion dat st
  | SessionEvent.setSelectedOption i =>
      if st.feedback = none then { st with selectedOption := some i } else st
  | SessionEvent.setSocraticInput s => { st with socraticInput := s }
  | SessionEvent.setChallengeAnswer s => { st with challengeAnswer := s }

/-! ## Ingest boundary (src/components/Ingest.tsx) -/

structure LoadedFile where
  name : String
  type : String
  data : Option String
  deriving DecidableEq, Repr

structure IngestState where
  text : String
  loadedFile : Option LoadedFile
  deriving DecidableEq, Repr

/-- A file presented at the ingest boundary: its JS `name` and `type` plus the
contents the two `FileReader` modes would deliver. -/
structure JSFile where
  name : String
  type : String
  textContent : String
  dataUrl : String
  deriving DecidableEq, Repr

/-- The text-like acceptance test of `handleFile`. -/
def isTextLike (f : JSFile) : Bool :=
  f.type == "text/plain" || jsEndsWith f.name ".md" || jsEndsWith f.name ".txt"

/-- Embeds `handleFile`: unconditionally clear the pasted text, then either load the
file as text (clearing any loaded file), load a PDF as base64 (the part of
the data URL after the first comma), or reject with an alert.  The boolean
records whether the unsupported-format alert fired. -/
def handleFile (f : JSFile) (st : IngestState) : IngestState × Bool :=
  let st := { st with text := "" }
  if isTextLike f then
    ({ st with text := f.textContent, loadedFile := none }, false)
  else if f.type == "application/pdf" then
    ({ st with loadedFile := some { name := f.name, type := f.type,
                                    data := (splitOnChar ',' f.dataUrl).get? 1 } }, false)
  else
    (st, true)

/-! ## Concrete sample values (used to exercise the definitions) -/

/-- A payload that satisfies the declared response schema's field structure
but has a single concept and no questions. -/
def badSessionPayload : StudySessionData :=
  { title := "t", summary := "s"
    concepts := [{ id := "c1", term := "x", definition := "d", analogy := "a", mastered := false }]
    questions := [] }

def demoConcept : StudyConcept :=
  { id := "c1", term := "T", definition := "D", analogy := "A", mastered := false }

def demoDeepDive : DeepDiveContent :=
  { theoreticalUnderpinnings := "th", realWorldApplication := "rw"
    interdisciplinaryConnection := "ic" }

def demoData : StudySessionData :=
  { title := "t", summary := "s", concepts := [demoConcept], questions := [] }

def demoState : SessionState :=
  { initialSessionState demoData with activeConceptId := some "c1" }

def demoStateHit : SessionState :=
  { demoState with deepDiveData := [("c1", demoDeepDive)] }

def demoQuestion : GameQuestion :=
  { id := "q1", type := QuestionType.CONCEPT_CHECK, question := "Q"
    options := some ["a", "b"], correctOptionIndex := some 1
    explanation := "E", difficulty := 3 }

/-! # Theorems -/

theorem mathMax_eq_max (a b : ℚ) : mathMax a b = max a b := (max_def a b).symm

theorem mathMin_eq_min (a b : ℚ) : mathMin a b = min a b := (min_def a b).symm

/-- Claim C1: `updateStability` sets the new stability to
`clamp(stability + delta, 0, 100)` — hence the result lies in [0, 100] for
any delta — and increments the streak by one exactly on a positive delta,
resetting it to zero on a non-positive delta. -/
theorem updateStability_spec (delta : ℚ) (stats : PlayerStats) (history : List HistorySample) :
    (updateStability delta stats history).1.stability
        = max 0 (min 100 (stats.stability + delta)) ∧
    0 ≤ (updateStability delta stats history).1.stability ∧
    (updateStability delta stats history).1.stability ≤ 100 ∧
    (0 < delta → (updateStability delta stats history).1.streak = stats.streak + 1) ∧
    (delta ≤ 0 → (updateStability delta stats history).1.streak = 0) := by
  have h1 : (updateStability delta stats history).1.stability
      = mathMax 0 (mathMin 100 (stats.stability + delta)) := rfl
  rw [mathMax_eq_max, mathMin_eq_min] at h1
  refine ⟨h1, ?_, ?_, ?_, ?_⟩
  · rw [h1]; exact le_max_left 0 _
  · rw [h1]; exact max_le (by norm_num) (min_le_left _ _)
  · intro h
    show (if 0 < delta then stats.streak + 1 else 0) = stats.streak + 1
    rw [if_pos h]
  · intro h
    show (if 0 < delta then stats.streak + 1 else 0) = 0
    rw [if_neg (not_lt.mpr h)]

/-- Witness for C1: a positive delta (+10) increments the streak. -/
theorem updateStability_spec_w :
    (0:ℚ) < 10 ∧
    (updateStability 10 { syncedNodes := 0, stability := 50, streak := 2 }
        [{ time := 0, stability := 50 }]).1.streak = 2 + 1 :=
  ⟨by norm_num,
   (updateStability_spec 10 { syncedNodes := 0, stability := 50, streak := 2 }
      [{ time := 0, stability := 50 }]).2.2.2.1 (by norm_num)⟩

/-- Claim C4: each `updateStability` call appends one sample whose time is the
old history length and whose stability is the clamped new value; when the
buffer would exceed 20 entries the oldest entry is dropped, so a buffer of at
most 20 samples never exceeds 20 after an update. -/
theorem updateStability_history_spec (delta : ℚ) (stats : PlayerStats)
    (history : List HistorySample) (h : history.length ≤ 20) :
    (updateStability delta stats history).2.length ≤ 20 ∧
    (updateStability delta stats history).2 =
      (if history.length = 20
       then (history ++ [({ time := history.length, stability := max 0 (min 100 (stats.stability + delta)) } : HistorySample)]).tail
       else history ++ [({ time := history.length, stability := max 0 (min 100 (stats.stability + delta)) } : HistorySample)]) := by
  have hs : (updateStability delta stats history).2 =
      if 20 < history.length + 1
      then (history ++ [({ time := history.length, stability := max 0 (min 100 (stats.stability + delta)) } : HistorySample)]).tail
      else history ++ [({ time := history.length, stability := max 0 (min 100 (stats.stability + delta)) } : HistorySample)] := by
    simp only [updateStability, mathMax_eq_max, mathMin_eq_min, List.length_append,
      List.length_singleton]
  rcases Nat.lt_or_ge history.length 20 with hlt | hge
  · have hnotgt : ¬ 20 < history.length + 1 := by omega
    rw [hs, if_neg hnotgt, if_neg (Nat.ne_of_lt hlt)]
    refine ⟨?_, rfl⟩
    simp only [List.length_append, List.length_singleton]
    omega
  · have heq : history.length = 20 := Nat.le_antisymm h hge
    have hgt : 20 < history.length + 1 := by omega
    rw [hs, if_pos hgt, if_pos heq]
    refine ⟨?_, rfl⟩
    simp only [List.length_tail, List.length_append, List.length_singleton]
    omega

/-- Witness for C4: updating from a one-sample buffer keeps it within 20 and
appends the sample at time 1. -/
theorem updateStability_history_spec_w :
    ([{ time := 0, stability := 50 }] : List HistorySample).length ≤ 20 ∧
    (updateStability 10 { syncedNodes := 0, stability := 50, streak := 0 }
        [{ time := 0, stability := 50 }]).2.length ≤ 20 :=
  ⟨by norm_num,
   (updateStability_history_spec 10 { syncedNodes := 0, stability := 50, streak := 0 }
      [{ time := 0, stability := 50 }] (by norm_num)).1⟩

/-- Claim C2 counterexample: on an empty service payload,
`generateConceptChallenge` succeeds with its fallback question and
`evaluateSocraticAnswer` succeeds with a default zero-score result — neither
fails with a generation error. -/
theorem genClient_empty_payload_counterexample :
    generateConceptChallenge none = Except.ok "Explain this concept in your own words." ∧
    exceptIsOk (generateConceptChallenge none) = true ∧
    evaluateSocraticAnswer none = Except.ok { score := 0, feedback := "Analysis failed." } ∧
    exceptIsOk (evaluateSocraticAnswer none) = true :=
  ⟨rfl, rfl, rfl, rfl⟩

/-- Claim C2 (amended): `generateSession`, `generateDeepDive` and
`evaluateChallenge` fail with a generation error on an empty or unparseable
payload; `generateChallenge` instead returns the fallback question "Explain
this concept in your own words." on an empty (falsy) payload and performs no
parsing; `evaluateSocraticAnswer` returns the default result score 0 /
"Analysis failed." on an empty payload and fails only on unparseable text. -/
theorem genClient_payload_behavior (t : String) :
    generateGameSession none = Except.error GenError.noResponseText ∧
    generateGameSession (some RawResponse.unparseable) = Except.error GenError.parseError ∧
    generateDeepDive none = Except.error GenError.noResponseText ∧
    generateDeepDive (some RawResponse.unparseable) = Except.error GenError.parseError ∧
    evaluateChallenge none = Except.error GenError.noResponseText ∧
    evaluateChallenge (some RawResponse.unparseable) = Except.error GenError.parseError ∧
    generateConceptChallenge none = Except.ok "Explain this concept in your own words." ∧
    generateConceptChallenge (some t)
        = Except.ok (if t = "" then "Explain this concept in your own words." else t) ∧
    evaluateSocraticAnswer none = Except.ok { score := 0, feedback := "Analysis failed." } ∧
    evaluateSocraticAnswer (some RawResponse.unparseable) = Except.error GenError.parseError :=
  ⟨rfl, rfl, rfl, rfl, rfl, rfl, rfl, rfl, rfl, rfl⟩

/-- Claim C8 counterexample: a parsed payload with a single concept and no
questions is returned by `generateGameSession` as a successful result — the
6–8 concept count and the 2 CONCEPT_CHECK + 1 SOCRATIC_DEFENSE mix are not
enforced anywhere in the code. -/
theorem generateGameSession_shape_counterexample :
    generateGameSession (some (RawResponse.parsed badSessionPayload))
        = Except.ok badSessionPayload ∧
    badSessionPayload.concepts.length = 1 ∧
    badSessionPayload.questions.length = 0 ∧
    specSessionShape badSessionPayload = false :=
  ⟨rfl, rfl, rfl, rfl⟩

/-- Claim C8 (amended): a successful `generateSession` call returns the parsed
payload with every concept's `mastered` flag force-initialized to false and
all other content unchanged; the declared schema fixes only the field
structure, so the concept count and question mix of a successful result are
whatever the service sent, not necessarily 6–8 and 2+1. -/
theorem generateGameSession_success_spec (d : StudySessionData) :
    generateGameSession (some (RawResponse.parsed d)) =
      Except.ok { d with concepts := d.concepts.map (fun c => { c with mastered := false }) } ∧
    (∀ d', generateGameSession (some (RawResponse.parsed d)) = Except.ok d' →
      d'.title = d.title ∧ d'.summary = d.summary ∧ d'.questions = d.questions ∧
      d'.concepts.length = d.concepts.length ∧
      (∀ c ∈ d'.concepts, c.mastered = false) ∧
      specSessionShape d' = specSessionShape d) := by
  refine ⟨rfl, ?_⟩
  intro d' hd'
  have hd2 : d' = { d with concepts := d.concepts.map (fun c => { c with mastered := false }) } := by
    injection hd' with h
    exact h.symm
  subst hd2
  refine ⟨rfl, rfl, rfl, List.length_map _ _, ?_, ?_⟩
  · intro c hc
    rw [List.mem_map] at hc
    obtain ⟨a, _, ha⟩ := hc
    rw [← ha]
  · show specSessionShape _ = specSessionShape d
    unfold specSessionShape
    rw [List.length_map]

/-- Witness for the amended C8 theorem at a concrete parsed payload. -/
theorem generateGameSession_success_spec_w :
    badSessionPayload.title = badSessionPayload.title ∧
    badSessionPayload.summary = badSessionPayload.summary ∧
    badSessionPayload.questions = badSessionPayload.questions ∧
    badSessionPayload.concepts.length = badSessionPayload.concepts.length ∧
    (∀ c ∈ badSessionPayload.concepts, c.mastered = false) ∧
    specSessionShape badSessionPayload = specSessionShape badSessionPayload :=
  (generateGameSession_success_spec badSessionPayload).2 badSessionPayload rfl

/-! ## Helper lemmas about the stability update plumbing -/

theorem updateStability_fst_stability (delta : ℚ) (stats : PlayerStats)
    (history : List HistorySample) :
    (updateStability delta stats history).1.stability
        = max 0 (min 100 (stats.stability + delta)) := by
  show mathMax 0 (mathMin 100 (stats.stability + delta)) = _
  rw [mathMax_eq_max, mathMin_eq_min]

theorem applyStability_stats (delta : ℚ) (st : SessionState) :
    (applyStability delta st).stats = (updateStability delta st.stats st.history).1 := rfl

/-- Claim C6: submitting a CONCEPT_CHECK answer with a null selection does
nothing; with a non-null selection, a selection equal to
`correctOptionIndex` applies the `+STABILITY_BONUS` (+10) delta with success
feedback, and any other selection applies the `-STABILITY_PENALTY` (-15)
delta with error feedback. -/
theorem handleChoiceSubmit_spec (q : GameQuestion) (st : SessionState) :
    STABILITY_BONUS = 10 ∧ -STABILITY_PENALTY = -15 ∧
    (st.selectedOption = none → handleChoiceSubmit q st = st) ∧
    (∀ sel : Int, st.selectedOption = some sel →
      (q.correctOptionIndex = some sel →
        handleChoiceSubmit q st =
          applyStability STABILITY_BONUS
            { st with feedback := some { ftype := FeedbackType.success, msg := q.explanation } } ∧
        (handleChoiceSubmit q st).stats.stability
            = max 0 (min 100 (st.stats.stability + STABILITY_BONUS))) ∧
      (q.correctOptionIndex ≠ some sel →
        handleChoiceSubmit q st =
          applyStability (-STABILITY_PENALTY)
            { st with feedback := some { ftype := FeedbackType.error, msg := "Incorrect. " ++ q.explanation } } ∧
        (handleChoiceSubmit q st).stats.stability
            = max 0 (min 100 (st.stats.stability + -STABILITY_PENALTY)))) := by
  refine ⟨rfl, rfl, ?_, ?_⟩
  · intro h
    simp [handleChoiceSubmit, h]
  · intro sel hsel
    constructor
    · intro hcorr
      have hmain : handleChoiceSubmit q st =
          applyStability STABILITY_BONUS
            { st with feedback := some { ftype := FeedbackType.success, msg := q.explanation } } := by
        simp [handleChoiceSubmit, hsel, hcorr]
      refine ⟨hmain, ?_⟩
      rw [hmain, applyStability_stats, updateStability_fst_stability]
    · intro hcorr
      have hmain : handleChoiceSubmit q st =
          applyStability (-STABILITY_PENALTY)
            { st with feedback := some { ftype := FeedbackType.error, msg := "Incorrect. " ++ q.explanation } } := by
        simp [handleChoiceSubmit, hsel, hcorr]
      refine ⟨hmain, ?_⟩
      rw [hmain, applyStability_stats, updateStability_fst_stability]

/-- Witness for C6: a correct concrete selection yields the +10 bonus. -/
theorem handleChoiceSubmit_spec_w :
    ({ demoState with selectedOption := some 1 } : SessionState).selectedOption = some 1 ∧
    STABILITY_BONUS = 10 :=
  ⟨rfl, (handleChoiceSubmit_spec demoQuestion { demoState with selectedOption := some 1 }).1⟩

/-- Claim C7: for a SOCRATIC_DEFENSE submission with non-blank answer text,
a score of at least 70 takes the pass branch applying delta
`STABILITY_BONUS * 1.5` (= +15) with success feedback, and a score below 70
takes the fail branch applying `-STABILITY_PENALTY` (= -15) with error
feedback. -/
theorem handleSocraticSubmit_spec (st : SessionState) (e : SocraticEval)
    (h : ¬ jsTrim st.socraticInput = "") :
    STABILITY_BONUS * 1.5 = 15 ∧ -STABILITY_PENALTY = -15 ∧
    (70 ≤ e.score →
      handleSocraticSubmit (Except.ok e) st =
        applyStability (STABILITY_BONUS * 1.5)
          { st with feedback := some { ftype := FeedbackType.success, msg := socraticMsg e } } ∧
      (handleSocraticSubmit (Except.ok e) st).stats.stability
          = max 0 (min 100 (st.stats.stability + STABILITY_BONUS * 1.5))) ∧
    (e.score < 70 →
      handleSocraticSubmit (Except.ok e) st =
        applyStability (-STABILITY_PENALTY)
          { st with feedback := some { ftype := FeedbackType.error, msg := socraticMsg e } } ∧
      (handleSocraticSubmit (Except.ok e) st).stats.stability
          = max 0 (min 100 (st.stats.stability + -STABILITY_PENALTY))) := by
  refine ⟨by norm_num [STABILITY_BONUS], rfl, ?_, ?_⟩
  · intro h70
    have hmain : handleSocraticSubmit (Except.ok e) st =
        applyStability (STABILITY_BONUS * 1.5)
          { st with feedback := some { ftype := FeedbackType.success, msg := socraticMsg e } } := by
      simp [handleSocraticSubmit, h, h70]
    refine ⟨hmain, ?_⟩
    rw [hmain, applyStability_stats, updateStability_fst_stability]
  · intro h70
    have hmain : handleSocraticSubmit (Except.ok e) st =
        applyStability (-STABILITY_PENALTY)
          { st with feedback := some { ftype := FeedbackType.error, msg := socraticMsg e } } := by
      simp [handleSocraticSubmit, h, not_le.mpr h70]
    refine ⟨hmain, ?_⟩
    rw [hmain, applyStability_stats, updateStability_fst_stability]

/-- Witness for C7: a non-blank answer with score 80 exercises the theorem;
the pass delta is 15. -/
theorem handleSocraticSubmit_spec_w :
    ¬ jsTrim ("x" : String) = "" ∧ STABILITY_BONUS * 1.5 = 15 :=
  ⟨by decide,
   (handleSocraticSubmit_spec { demoState with socraticInput := "x" }
      { score := 80, feedback := "f" } (by decide)).1⟩

/-- Claim C5: with an active concept, a deep-dive request that hits the cache
issues no external call, switches the mode to DEEP_DIVE and changes nothing
else (the memoized value stays available); on a cache miss a failed call
writes nothing, a successful call writes exactly one cache entry for that
concept id, and after a successful call any further deep-dive request for
that concept issues no external call. -/
theorem fetchDeepDive_spec (st : SessionState) (c : StudyConcept)
    (hc : activeConcept st = some c) :
    (∀ d, dlookup st.deepDiveData c.id = some d →
      ∀ r, fetchDeepDive r st = ({ st with conceptMode := ConceptMode.DEEP_DIVE }, false)) ∧
    (dlookup st.deepDiveData c.id = none →
      fetchDeepDive (Except.error ()) st = (st, true) ∧
      (∀ d, fetchDeepDive (Except.ok d) st =
        ({ st with deepDiveData := (c.id, d) :: st.deepDiveData, conceptMode := ConceptMode.DEEP_DIVE }, true)) ∧
      (∀ d r, (fetchDeepDive r ((fetchDeepDive (Except.ok d) st).1)).2 = false)) := by
  constructor
  · intro d hd r
    simp [fetchDeepDive, hc, hd]
  · intro hd
    refine ⟨by simp [fetchDeepDive, hc, hd], by intro d; simp [fetchDeepDive, hc, hd], ?_⟩
    intro d r
    have hst1 : (fetchDeepDive (Except.ok d) st).1 =
        { st with deepDiveData := (c.id, d) :: st.deepDiveData, conceptMode := ConceptMode.DEEP_DIVE } := by
      simp [fetchDeepDive, hc, hd]
    rw [hst1]
    have hac2 : activeConcept
        { st with deepDiveData := (c.id, d) :: st.deepDiveData, conceptMode := ConceptMode.DEEP_DIVE }
        = some c := hc
    have hd2 : dlookup ((c.id, d) :: st.deepDiveData) c.id = some d := by
      simp [dlookup, List.find?]
    simp [fetchDeepDive, hac2, hd2]

/-- Witness for C5: a cache hit on a concrete state issues no call. -/
theorem fetchDeepDive_spec_w :
    fetchDeepDive (Except.error ()) demoStateHit
      = ({ demoStateHit with conceptMode := ConceptMode.DEEP_DIVE }, false) :=
  (fetchDeepDive_spec demoStateHit demoConcept (by decide)).1 demoDeepDive (by decide)
    (Except.error ())

/-- Claim C10: `handleFile` clears any previously pasted text before checking
the file type, so a file of unsupported type is rejected with the alert while
the pasted text has already been erased and any previously loaded PDF payload
is left in place. -/
theorem handleFile_unsupported (f : JSFile) (st : IngestState)
    (h1 : isTextLike f = false) (h2 : (f.type == "application/pdf") = false) :
    handleFile f st = ({ st with text := "" }, true) ∧
    (handleFile f st).1.text = "" ∧
    (handleFile f st).1.loadedFile = st.loadedFile ∧
    (handleFile f st).2 = true := by
  have hmain : handleFile f st = ({ st with text := "" }, true) := by
    simp [handleFile, h1, h2]
  exact ⟨hmain, by rw [hmain], by rw [hmain], by rw [hmain]⟩

/-- Witness for C10: an unsupported image file erases pasted text, keeps the
(empty) loaded-file slot, and is rejected. -/
theorem handleFile_unsupported_w :
    (handleFile { name := "a.png", type := "image/png", textContent := "", dataUrl := "" }
        { text := "hello", loadedFile := none }).1.loadedFile = none ∧
    (handleFile { name := "a.png", type := "image/png", textContent := "", dataUrl := "" }
        { text := "hello", loadedFile := none }).2 = true :=
  have h := handleFile_unsupported
    { name := "a.png", type := "image/png", textContent := "", dataUrl := "" }
    { text := "hello", loadedFile := none } (by decide) (by decide)
  ⟨h.2.2.1, h.2.2.2⟩

/-! ## The session step and the concepts list -/

/-- Any step either leaves the concepts list untouched, or the event was a
passed challenge evaluation and the step marks one concept id mastered. -/
theorem step_concepts_cases (dat : StudySessionData) (e : SessionEvent) (st : SessionState) :
    (step dat e st).concepts = st.concepts ∨
    (∃ r : ChallengeResult, ∃ cid : String,
      e = SessionEvent.submitSync (Except.ok r) ∧ r.passed = true ∧
      (step dat e st).concepts =
        st.concepts.map (fun k => if k.id == cid then { k with mastered := true } else k)) := by
  cases e with
  | selectConcept cid => exact Or.inl rfl
  | deepDive r =>
      left
      cases hac : activeConcept st with
      | none => simp [step, fetchDeepDive, hac]
      | some c =>
          cases hdl : dlookup st.deepDiveData c.id with
          | none => cases r <;> simp [step, fetchDeepDive, hac, hdl]
          | some d => simp [step, fetchDeepDive, hac, hdl]
  | initSync r =>
      left
      cases hac : activeConcept st with
      | none => simp [step, initSyncProtocol, hac]
      | some c => cases r <;> simp [step, initSyncProtocol, hac]
  | submitSync r =>
      cases hac : activeConcept st with
      | none => left; simp [step, submitSyncChallenge, hac]
      | some c =>
          cases hq : st.challengeQ with
          | none => left; simp [step, submitSyncChallenge, hac, hq]
          | some q =>
              by_cases hg : q = "" ∨ st.challengeAnswer = ""
              · left; simp [step, submitSyncChallenge, hac, hq, hg]
              · cases r with
                | error u => left; simp [step, submitSyncChallenge, hac, hq, hg]
                | ok res =>
                    cases hp : res.passed with
                    | true =>
                        right
                        refine ⟨res, c.id, rfl, hp, ?_⟩
                        simp [step, submitSyncChallenge, hac, hq, hg, hp, applyStability]
                    | false =>
                        left
                        simp [step, submitSyncChallenge, hac, hq, hg, hp, applyStability]
  | choiceSubmit =>
      left
      simp only [step]
      split
      · rename_i q heq
        cases hso : st.selectedOption with
        | none => simp [handleChoiceSubmit, hso]
        | some sel =>
            by_cases hci : q.correctOptionIndex = some sel <;>
              simp [handleChoiceSubmit, hso, hci, applyStability]
      · rfl
  | socraticSubmit r =>
      left
      by_cases hb : jsTrim st.socraticInput = ""
      · simp [step, handleSocraticSubmit, hb]
      · cases r with
        | error u => simp [step, handleSocraticSubmit, hb]
        | ok ev => simp [step, handleSocraticSubmit, hb, applyStability]
  | next =>
      left
      by_cases hlt : st.currentQIndex < dat.questions.length - 1 <;>
        simp [step, nextQuestion, hlt]
  | setSelectedOption i =>
      left
      by_cases hf : st.feedback = none <;> simp [step, hf]
  | setSocraticInput s => exact Or.inl rfl
  | setChallengeAnswer s => exact Or.inl rfl

/-- Claim C3: every concept arrives from `generateGameSession` with
`mastered` force-initialized to false regardless of the model's payload;
during a session a step never flips a mastered flag from true to false, and
flips it false→true only on a challenge evaluation whose result was
`passed = true`. -/
theorem mastered_lifecycle (dat : StudySessionData) (e : SessionEvent) (st : SessionState)
    (i : Nat) (c c' : StudyConcept)
    (hc : st.concepts[i]? = some c)
    (hc' : (step dat e st).concepts[i]? = some c') :
    (c.mastered = true → c'.mastered = true) ∧
    (c.mastered = false → c'.mastered = true →
      ∃ r : ChallengeResult, e = SessionEvent.submitSync (Except.ok r) ∧ r.passed = true) ∧
    (∀ resp d, generateGameSession resp = Except.ok d → ∀ k ∈ d.concepts, k.mastered = false) := by
  have genpart : ∀ resp d, generateGameSession resp = Except.ok d →
      ∀ k ∈ d.concepts, k.mastered = false := by
    intro resp d hgd k hk
    cases resp with
    | none => simp [generateGameSession] at hgd
    | some rr =>
        cases rr with
        | unparseable => simp [generateGameSession] at hgd
        | parsed d0 =>
            simp only [generateGameSession, Except.ok.injEq] at hgd
            rw [← hgd] at hk
            simp only [List.mem_map] at hk
            obtain ⟨a, _, ha⟩ := hk
            rw [← ha]
  rcases step_concepts_cases dat e st with hsame | ⟨r, cid, he, hp, hmap⟩
  · rw [hsame, hc] at hc'
    injection hc' with hcc
    subst hcc
    exact ⟨fun h => h, fun h1 h2 => absurd (h1.symm.trans h2) (by decide), genpart⟩
  · rw [hmap] at hc'
    rw [List.getElem?_map, hc] at hc'
    simp only [Option.map_some'] at hc'
    injection hc' with hcc
    refine ⟨?_, ?_, genpart⟩
    · intro hm
      rw [← hcc]
      by_cases hid : (c.id == cid) = true
      · rw [if_pos hid]
      · rw [if_neg hid]; exact hm
    · intro _ _
      exact ⟨r, he, hp⟩

/-- Witness for C3: a typing event keeps a mastered concept mastered. -/
theorem mastered_lifecycle_w :
    ({ demoConcept with mastered := true } : StudyConcept).mastered = true :=
  (mastered_lifecycle demoData (SessionEvent.setChallengeAnswer "a")
      { demoState with concepts := [{ demoConcept with mastered := true }] }
      0 { demoConcept with mastered := true } { demoConcept with mastered := true }
      rfl rfl).1 rfl

/-- Claim C9: a failed external call — deep dive, challenge evaluation or
socratic evaluation — is caught at the call site and leaves the stats
(including streak), the stability history, the concepts (mastered flags) and
the deep-dive cache all unchanged. -/
theorem step_failure_preserves_state (dat : StudySessionData) (st : SessionState) :
    ((step dat (SessionEvent.deepDive (Except.error ())) st).stats = st.stats ∧
     (step dat (SessionEvent.deepDive (Except.error ())) st).history = st.history ∧
     (step dat (SessionEvent.deepDive (Except.error ())) st).concepts = st.concepts ∧
     (step dat (SessionEvent.deepDive (Except.error ())) st).deepDiveData = st.deepDiveData) ∧
    ((step dat (SessionEvent.submitSync (Except.error ())) st).stats = st.stats ∧
     (step dat (SessionEvent.submitSync (Except.error ())) st).history = st.history ∧
     (step dat (SessionEvent.submitSync (Except.error ())) st).concepts = st.concepts ∧
     (step dat (SessionEvent.submitSync (Except.error ())) st).deepDiveData = st.deepDiveData) ∧
    ((step dat (SessionEvent.socraticSubmit (Except.error ())) st).stats = st.stats ∧
     (step dat (SessionEvent.socraticSubmit (Except.error ())) st).history = st.history ∧
     (step dat (SessionEvent.socraticSubmit (Except.error ())) st).concepts = st.concepts ∧
     (step dat (SessionEvent.socraticSubmit (Except.error ())) st).deepDiveData = st.deepDiveData) := by
  refine ⟨?_, ?_, ?_⟩
  · cases hac : activeConcept st with
    | none => simp [step, fetchDeepDive, hac]
    | some c =>
        cases hdl : dlookup st.deepDiveData c.id with
        | none => simp [step, fetchDeepDive, hac, hdl]
        | some d => simp [step, fetchDeepDive, hac, hdl]
  · cases hac : activeConcept st with
    | none => simp [step, submitSyncChallenge, hac]
    | some c =>
        cases hq : st.challengeQ with
        | none => simp [step, submitSyncChallenge, hac, hq]
        | some q =>
            by_cases hg : q = "" ∨ st.challengeAnswer = "" <;>
              simp [step, submitSyncChallenge, hac, hq, hg]
  · by_cases hb : jsTrim st.socraticInput = "" <;>
      simp [step, handleSocraticSubmit, hb]

end NeuralNexus
